import Mathlib

/-!
Verification of the `pyapiauthenticator` request handler.

Shallow embedding of `src/base/api.py` (`SimpleAPIHandler`). The handler
methods are straight-line code that call `send_response`, `send_header`,
`end_headers` and `wfile.write`, plus two `LOGGER.debug` calls; we model a
handler invocation as the list of those calls, in order, as `Event`s.
Request-scoped data (method, path, request headers, request body) is the
`Request` record; the handler never reads anything else.
-/

/-- HTTP methods the handler recognizes (one `do_<METHOD>` per verb). -/
inductive Method where
  | GET
  | POST
  | PUT
  | PATCH
  | DELETE
  | HEAD
  | OPTIONS
deriving DecidableEq, Repr

/-- A parsed incoming request, as visible to the handler: `self.command`
(dispatch target), `self.path`, `self.headers` (an ordered multimap with
case-insensitive lookup), and the (never-read) request body. -/
structure Request where
  method : Method
  path : String
  headers : List (String × String)
  body : String
deriving Repr

/-- Payload of a `LOGGER.debug` call in `set_defaults`: either the parsed
incoming-cookie mapping or the full incoming header mapping. -/
inductive LogPayload where
  | cookies (c : List (String × String))
  | headerMap (h : List (String × String))
deriving DecidableEq, Repr

/-- A response body write. `jsonMessage m` stands for the bytes
`json.dumps({"message": m}).encode()`; `jsonError e` stands for the literal
bytes of the JSON object with single key `error` and value `e`
(the code writes the fixed literal for `e = "Not Found"`). -/
inductive Body where
  | jsonMessage (msg : String)
  | jsonError (err : String)
deriving DecidableEq, Repr

/-- One observable action of a handler invocation, in program order. -/
inductive Event where
  | sendResponse (status : Nat)
  | sendHeader (key value : String)
  | endHeaders
  | write (b : Body)
  | debug (p : LogPayload)
deriving DecidableEq, Repr

/-- Python `str.lower()`, over the character list. -/
def pyLower (s : String) : String :=
  String.mk (s.data.map Char.toLower)

/-- Python `c in s` for a single-character needle, over the character list. -/
def pyContainsChar (s : String) (c : Char) : Bool :=
  s.data.any (fun x => x = c)

/-- Python `str.strip()` with no argument: remove whitespace from both
ends (the claims only exercise ASCII whitespace, which
`Char.isWhitespace` covers). -/
def pyStrip (s : String) : String :=
  String.mk (((s.data.dropWhile Char.isWhitespace).reverse.dropWhile Char.isWhitespace).reverse)

/-- Splitting a character list on a separator character, keeping empty
segments, as Python `str.split(sep)` does. -/
def splitCharList (c : Char) : List Char → List (List Char)
  | [] => [[]]
  | x :: xs =>
      let r := splitCharList c xs
      if x = c then [] :: r
      else
        match r with
        | [] => [[x]]
        | y :: ys => (x :: y) :: ys

/-- Python `s.split(sep)` for a one-character separator. -/
def pySplit (s : String) (c : Char) : List String :=
  (splitCharList c s.data).map String.mk

/-- `self.headers.get(name)`: first header whose field name matches
case-insensitively (HTTP header names are case-insensitive; Python's
`email.message.Message.get` implements exactly this). -/
def getHeader (headers : List (String × String)) (name : String) : Option String :=
  (headers.find? (fun kv => pyLower kv.1 = pyLower name)).map (fun kv => kv.2)

/-- Python `pair.split("=", 1)`: the part before the first `=` and the
part after it (callers guard on `=` being present). -/
def splitFirstEq (s : String) : String × String :=
  (String.mk (s.data.takeWhile (fun c => c ≠ '=')),
   String.mk ((s.data.dropWhile (fun c => c ≠ '=')).drop 1))

/-- Python `cookies[key] = value` on an insertion-ordered dict: update in
place if the key exists, else append. -/
def dictInsert (d : List (String × String)) (k v : String) : List (String × String) :=
  if d.any (fun kv => kv.1 = k) then
    d.map (fun kv => if kv.1 = k then (k, v) else kv)
  else d ++ [(k, v)]

/-- The incoming-cookie parsing loop of `set_defaults`
(`for pair in cookie_header.split(";"): if "=" in pair:
key, value = pair.strip().split("=", 1); cookies[key] = value`). -/
def parseCookieHeader (h : String) : List (String × String) :=
  (pySplit h ';').foldl
    (fun d pair =>
      if pyContainsChar pair '=' then
        let kv := splitFirstEq (pyStrip pair)
        dictInsert d kv.1 kv.2
      else d)
    []

/-- Optional cookie attributes of `set_cookies`, with the Python defaults.
Python's `None` and `""` are both falsy under the `if attr:` checks the
code uses, so the string attributes collapse `None` into `""`; `expires`
holds the already-formatted timestamp string (`str` input, or the result
of `strftime` on a `datetime` input). -/
structure CookieAttrs where
  path : String := "/"
  domain : String := ""
  http_only : Bool := false
  secure : Bool := false
  max_age : Int := 3600
  expires : String := ""
deriving DecidableEq, Repr

/-- The Python default attribute values of `set_cookies`. -/
def defaultAttrs : CookieAttrs := ⟨"/", "", false, false, 3600, ""⟩

/-- The cookie-string construction inside the `set_cookies` loop: the
f-string `key=value`, followed by the chain of truthiness-guarded
`cookie +=` statements, in source order. -/
def renderCookie (key value : String) (a : CookieAttrs) : String :=
  let cookie := key ++ "=" ++ value
  let cookie := if a.path ≠ "" then cookie ++ "; Path=" ++ a.path else cookie
  let cookie := if a.domain ≠ "" then cookie ++ "; Domain=" ++ a.domain else cookie
  let cookie := if a.http_only then cookie ++ "; HttpOnly" else cookie
  let cookie := if a.secure then cookie ++ "; Secure" else cookie
  let cookie := if a.max_age ≠ 0 then cookie ++ "; Max-Age=" ++ toString a.max_age else cookie
  let cookie := if a.expires ≠ "" then cookie ++ "; Expires=" ++ a.expires else cookie
  cookie

/-- `set_cookies`: one `send_header("Set-Cookie", cookie)` per mapping entry. -/
def set_cookies (cookies : List (String × String)) (a : CookieAttrs) : List Event :=
  cookies.map (fun kv => Event.sendHeader "Set-Cookie" (renderCookie kv.1 kv.2 a))

/-- `set_headers`: one `send_header(key, value)` per mapping entry. -/
def set_headers (headers : List (String × String)) : List Event :=
  headers.map (fun kv => Event.sendHeader kv.1 kv.2)

/-- The two `LOGGER.debug` calls at the top of `set_defaults`: the parsed
cookie mapping (only when the `Cookie` header is present and non-empty,
per the walrus-`if` truthiness test) and then the full header mapping. -/
def debugEvents (req : Request) : List Event :=
  (match getHeader req.headers "Cookie" with
   | some ch => if ch ≠ "" then [Event.debug (LogPayload.cookies (parseCookieHeader ch))] else []
   | none => []) ++
  [Event.debug (LogPayload.headerMap req.headers)]

/-- `set_defaults`: debug logging, then status 200, the two standard
headers, the single `visited=true` cookie with default attributes, and
`end_headers()`. -/
def set_defaults (req : Request) : List Event :=
  debugEvents req ++
  [Event.sendResponse 200] ++
  set_headers [("Content-type", "application/json"), ("X-Server", "NoFrameworkServer")] ++
  set_cookies [("visited", "true")] defaultAttrs ++
  [Event.endHeaders]

/-- The full handler dispatch: each `do_<METHOD>` body of
`SimpleAPIHandler`, keyed by the request method. -/
def handle (req : Request) : List Event :=
  match req.method with
  | Method.DELETE =>
      set_defaults req ++ [Event.write (Body.jsonMessage "🔴 DELETE received")]
  | Method.HEAD =>
      set_defaults req ++ [Event.write (Body.jsonMessage "🟣 HEAD received")]
  | Method.OPTIONS =>
      [Event.sendResponse 200,
       Event.sendHeader "Access-Control-Allow-Origin" "*",
       Event.sendHeader "Access-Control-Allow-Methods" "GET, POST, OPTIONS",
       Event.sendHeader "Access-Control-Allow-Headers" "Content-Type",
       Event.endHeaders,
       Event.write (Body.jsonMessage "⚪ OPTIONS received")]
  | Method.POST =>
      set_defaults req ++ [Event.write (Body.jsonMessage "🟡 POST received")]
  | Method.PUT =>
      set_defaults req ++ [Event.write (Body.jsonMessage "🔵 PUT received")]
  | Method.PATCH =>
      set_defaults req ++ [Event.write (Body.jsonMessage "🟠 PATCH received")]
  | Method.GET =>
      if req.path = "/" then
        set_defaults req ++ [Event.write (Body.jsonMessage "🟢 GET received")]
      else
        [Event.sendResponse 404,
         Event.sendHeader "Content-type" "application/json",
         Event.endHeaders,
         Event.write (Body.jsonError "Not Found")]

/-! ## Observations on a handler trace -/

/-- Is the event a `LOGGER.debug` call (not part of the wire response)? -/
def isDebug : Event → Bool
  | Event.debug _ => true
  | _ => false

/-- The wire-visible part of a trace: everything except debug logging. -/
def wireEvents (tr : List Event) : List Event :=
  tr.filter (fun e => !(isDebug e))

/-- The statuses sent by `send_response` calls, in order. -/
def statuses (tr : List Event) : List Nat :=
  tr.filterMap (fun e =>
    match e with
    | Event.sendResponse s => some s
    | _ => none)

/-- The header lines sent by `send_header` calls, in order. -/
def headerLines (tr : List Event) : List (String × String) :=
  tr.filterMap (fun e =>
    match e with
    | Event.sendHeader k v => some (k, v)
    | _ => none)

/-- The values of the `Set-Cookie` header lines of a trace, in order. -/
def setCookieLines (tr : List Event) : List String :=
  (headerLines tr).filterMap (fun kv => if kv.1 = "Set-Cookie" then some kv.2 else none)

/-- The body writes of a trace, in order. -/
def bodyWrites (tr : List Event) : List Body :=
  tr.filterMap (fun e =>
    match e with
    | Event.write b => some b
    | _ => none)

/-- Does the trace carry a header line with the given (HTTP
case-insensitive) field name and exactly the given value? -/
def hasHeaderCI (tr : List Event) (name value : String) : Bool :=
  (headerLines tr).any (fun kv => pyLower kv.1 = pyLower name && kv.2 = value)

/-- The fixed response message of each verb's handler (spec, section 6). -/
def verbMessage : Method → String
  | Method.GET => "🟢 GET received"
  | Method.POST => "🟡 POST received"
  | Method.PUT => "🔵 PUT received"
  | Method.PATCH => "🟠 PATCH received"
  | Method.DELETE => "🔴 DELETE received"
  | Method.HEAD => "🟣 HEAD received"
  | Method.OPTIONS => "⚪ OPTIONS received"

/-- The events of the shared default path after the debug logging, with
the verb's body write appended. -/
def defaultTail (msg : String) : List Event :=
  [Event.sendResponse 200,
   Event.sendHeader "Content-type" "application/json",
   Event.sendHeader "X-Server" "NoFrameworkServer",
   Event.sendHeader "Set-Cookie" (renderCookie "visited" "true" defaultAttrs),
   Event.endHeaders,
   Event.write (Body.jsonMessage msg)]

theorem handle_default_shape (req : Request)
    (h : req.method = Method.POST ∨ req.method = Method.PUT ∨ req.method = Method.PATCH ∨
         req.method = Method.DELETE ∨ req.method = Method.HEAD) :
    handle req = debugEvents req ++ defaultTail (verbMessage req.method) := by
  rcases h with h | h | h | h | h <;>
    simp [handle, h, set_defaults, set_headers, set_cookies, defaultTail, verbMessage]

theorem handle_get_root_shape (req : Request)
    (hm : req.method = Method.GET) (hp : req.path = "/") :
    handle req = debugEvents req ++ defaultTail (verbMessage Method.GET) := by
  simp [handle, hm, hp, set_defaults, set_headers, set_cookies, defaultTail, verbMessage]

theorem statuses_debugEvents (req : Request) : statuses (debugEvents req) = [] := by
  unfold statuses debugEvents
  cases getHeader req.headers "Cookie" with
  | none => rfl
  | some ch => by_cases h : ch = "" <;> simp [h]

theorem headerLines_debugEvents (req : Request) : headerLines (debugEvents req) = [] := by
  unfold headerLines debugEvents
  cases getHeader req.headers "Cookie" with
  | none => rfl
  | some ch => by_cases h : ch = "" <;> simp [h]

theorem bodyWrites_debugEvents (req : Request) : bodyWrites (debugEvents req) = [] := by
  unfold bodyWrites debugEvents
  cases getHeader req.headers "Cookie" with
  | none => rfl
  | some ch => by_cases h : ch = "" <;> simp [h]

theorem wireEvents_debugEvents (req : Request) : wireEvents (debugEvents req) = [] := by
  unfold wireEvents debugEvents
  cases getHeader req.headers "Cookie" with
  | none => rfl
  | some ch => by_cases h : ch = "" <;> simp [h, isDebug]

theorem statuses_append (l1 l2 : List Event) :
    statuses (l1 ++ l2) = statuses l1 ++ statuses l2 :=
  List.filterMap_append l1 l2 _

theorem headerLines_append (l1 l2 : List Event) :
    headerLines (l1 ++ l2) = headerLines l1 ++ headerLines l2 :=
  List.filterMap_append l1 l2 _

theorem bodyWrites_append (l1 l2 : List Event) :
    bodyWrites (l1 ++ l2) = bodyWrites l1 ++ bodyWrites l2 :=
  List.filterMap_append l1 l2 _

theorem wireEvents_append (l1 l2 : List Event) :
    wireEvents (l1 ++ l2) = wireEvents l1 ++ wireEvents l2 :=
  List.filter_append l1 l2

/-! ## Claims -/

/-- C1: for every verb in POST/PUT/PATCH/DELETE/HEAD and every request
path (and arbitrary request headers and body), the handler responds with
status 200, headers `Content-Type: application/json` and
`X-Server: NoFrameworkServer` (header field names compared
case-insensitively, as HTTP requires — the code spells the first
`Content-type`), exactly one `Set-Cookie` line
`visited=true; Path=/; Max-Age=3600`, and the single body write
`json.dumps` of the verb's fixed emoji-prefixed message; HEAD included. -/
theorem c1_default_verbs (req : Request)
    (h : req.method = Method.POST ∨ req.method = Method.PUT ∨ req.method = Method.PATCH ∨
         req.method = Method.DELETE ∨ req.method = Method.HEAD) :
    statuses (handle req) = [200] ∧
    hasHeaderCI (handle req) "Content-Type" "application/json" = true ∧
    hasHeaderCI (handle req) "X-Server" "NoFrameworkServer" = true ∧
    setCookieLines (handle req) = ["visited=true; Path=/; Max-Age=3600"] ∧
    bodyWrites (handle req) = [Body.jsonMessage (verbMessage req.method)] := by
  rw [handle_default_shape req h]
  refine ⟨?_, ?_, ?_, ?_, ?_⟩ <;>
    simp only [statuses_append, headerLines_append, bodyWrites_append, hasHeaderCI,
      setCookieLines, statuses_debugEvents, headerLines_debugEvents, bodyWrites_debugEvents,
      List.nil_append] <;>
    rcases h with h | h | h | h | h <;> rw [h] <;> decide

/-- C1 witness: a concrete POST request with a cookie header and body. -/
theorem c1_default_verbs_witness :
    statuses (handle ⟨Method.POST, "/some/path", [("Cookie", "a=1; junk"), ("Accept", "*")], "payload"⟩) = [200] ∧
    hasHeaderCI (handle ⟨Method.POST, "/some/path", [("Cookie", "a=1; junk"), ("Accept", "*")], "payload"⟩) "Content-Type" "application/json" = true ∧
    hasHeaderCI (handle ⟨Method.POST, "/some/path", [("Cookie", "a=1; junk"), ("Accept", "*")], "payload"⟩) "X-Server" "NoFrameworkServer" = true ∧
    setCookieLines (handle ⟨Method.POST, "/some/path", [("Cookie", "a=1; junk"), ("Accept", "*")], "payload"⟩) = ["visited=true; Path=/; Max-Age=3600"] ∧
    bodyWrites (handle ⟨Method.POST, "/some/path", [("Cookie", "a=1; junk"), ("Accept", "*")], "payload"⟩) = [Body.jsonMessage (verbMessage Method.POST)] :=
  c1_default_verbs ⟨Method.POST, "/some/path", [("Cookie", "a=1; junk"), ("Accept", "*")], "payload"⟩
    (Or.inl rfl)

/-- C2: for a GET request, path exactly `/` goes through the default path
(status 200, body message `🟢 GET received`); every other path yields
exactly the four-event 404 trace — status 404, one
`Content-Type: application/json` header line (case-insensitive field
name), the JSON `Not Found` error body, no `Set-Cookie` line and no debug
logging at all. -/
theorem c2_get_dispatch (req : Request) (h : req.method = Method.GET) :
    (req.path = "/" →
       statuses (handle req) = [200] ∧
       bodyWrites (handle req) = [Body.jsonMessage "🟢 GET received"]) ∧
    (req.path ≠ "/" →
       handle req =
         [Event.sendResponse 404,
          Event.sendHeader "Content-type" "application/json",
          Event.endHeaders,
          Event.write (Body.jsonError "Not Found")] ∧
       statuses (handle req) = [404] ∧
       hasHeaderCI (handle req) "Content-Type" "application/json" = true ∧
       bodyWrites (handle req) = [Body.jsonError "Not Found"] ∧
       setCookieLines (handle req) = [] ∧
       (handle req).all (fun e => !(isDebug e)) = true) := by
  constructor
  · intro hp
    rw [handle_get_root_shape req h hp]
    constructor <;>
      simp only [statuses_append, bodyWrites_append, statuses_debugEvents,
        bodyWrites_debugEvents, List.nil_append] <;>
      decide
  · intro hp
    have he : handle req =
        [Event.sendResponse 404,
         Event.sendHeader "Content-type" "application/json",
         Event.endHeaders,
         Event.write (Body.jsonError "Not Found")] := by
      simp [handle, h, hp]
    refine ⟨he, ?_, ?_, ?_, ?_, ?_⟩ <;> rw [he] <;> decide

/-- C2 witness: a concrete `GET /missing` request (with a cookie header)
takes the 404 branch. -/
theorem c2_get_dispatch_witness :
    handle ⟨Method.GET, "/missing", [("Cookie", "a=1")], ""⟩ =
      [Event.sendResponse 404,
       Event.sendHeader "Content-type" "application/json",
       Event.endHeaders,
       Event.write (Body.jsonError "Not Found")] ∧
    statuses (handle ⟨Method.GET, "/missing", [("Cookie", "a=1")], ""⟩) = [404] ∧
    hasHeaderCI (handle ⟨Method.GET, "/missing", [("Cookie", "a=1")], ""⟩) "Content-Type" "application/json" = true ∧
    bodyWrites (handle ⟨Method.GET, "/missing", [("Cookie", "a=1")], ""⟩) = [Body.jsonError "Not Found"] ∧
    setCookieLines (handle ⟨Method.GET, "/missing", [("Cookie", "a=1")], ""⟩) = [] ∧
    (handle ⟨Method.GET, "/missing", [("Cookie", "a=1")], ""⟩).all (fun e => !(isDebug e)) = true :=
  (c2_get_dispatch ⟨Method.GET, "/missing", [("Cookie", "a=1")], ""⟩ rfl).2 (by decide)

/-- C3: an OPTIONS request on any path yields exactly status 200, the
three fixed CORS header lines (and no others), the body
`⚪ OPTIONS received`, and no `Set-Cookie` line. -/
theorem c3_options (req : Request) (h : req.method = Method.OPTIONS) :
    handle req =
      [Event.sendResponse 200,
       Event.sendHeader "Access-Control-Allow-Origin" "*",
       Event.sendHeader "Access-Control-Allow-Methods" "GET, POST, OPTIONS",
       Event.sendHeader "Access-Control-Allow-Headers" "Content-Type",
       Event.endHeaders,
       Event.write (Body.jsonMessage "⚪ OPTIONS received")] ∧
    headerLines (handle req) =
      [("Access-Control-Allow-Origin", "*"),
       ("Access-Control-Allow-Methods", "GET, POST, OPTIONS"),
       ("Access-Control-Allow-Headers", "Content-Type")] ∧
    statuses (handle req) = [200] ∧
    bodyWrites (handle req) = [Body.jsonMessage "⚪ OPTIONS received"] ∧
    setCookieLines (handle req) = [] := by
  have he : handle req =
      [Event.sendResponse 200,
       Event.sendHeader "Access-Control-Allow-Origin" "*",
       Event.sendHeader "Access-Control-Allow-Methods" "GET, POST, OPTIONS",
       Event.sendHeader "Access-Control-Allow-Headers" "Content-Type",
       Event.endHeaders,
       Event.write (Body.jsonMessage "⚪ OPTIONS received")] := by
    simp [handle, h]
  refine ⟨he, ?_, ?_, ?_, ?_⟩ <;> rw [he] <;> decide

/-- C3 witness: a concrete OPTIONS request on a non-root path with a
cookie header. -/
theorem c3_options_witness :
    handle ⟨Method.OPTIONS, "/any/path", [("Cookie", "a=1")], ""⟩ =
      [Event.sendResponse 200,
       Event.sendHeader "Access-Control-Allow-Origin" "*",
       Event.sendHeader "Access-Control-Allow-Methods" "GET, POST, OPTIONS",
       Event.sendHeader "Access-Control-Allow-Headers" "Content-Type",
       Event.endHeaders,
       Event.write (Body.jsonMessage "⚪ OPTIONS received")] ∧
    headerLines (handle ⟨Method.OPTIONS, "/any/path", [("Cookie", "a=1")], ""⟩) =
      [("Access-Control-Allow-Origin", "*"),
       ("Access-Control-Allow-Methods", "GET, POST, OPTIONS"),
       ("Access-Control-Allow-Headers", "Content-Type")] ∧
    statuses (handle ⟨Method.OPTIONS, "/any/path", [("Cookie", "a=1")], ""⟩) = [200] ∧
    bodyWrites (handle ⟨Method.OPTIONS, "/any/path", [("Cookie", "a=1")], ""⟩) =
      [Body.jsonMessage "⚪ OPTIONS received"] ∧
    setCookieLines (handle ⟨Method.OPTIONS, "/any/path", [("Cookie", "a=1")], ""⟩) = [] :=
  c3_options ⟨Method.OPTIONS, "/any/path", [("Cookie", "a=1")], ""⟩ rfl

/-- C4: rendering the cookie directive `visited=true` with the default
attributes (path `/`, no domain, no http-only, no secure, max-age 3600,
no expires) produces exactly `visited=true; Path=/; Max-Age=3600`. -/
theorem c4_default_cookie_render :
    renderCookie "visited" "true" ⟨"/", "", false, false, 3600, ""⟩ =
      "visited=true; Path=/; Max-Age=3600" ∧
    renderCookie "visited" "true" defaultAttrs = "visited=true; Path=/; Max-Age=3600" := by
  decide

/-- Conditionally appending a segment equals appending a conditional
segment: the bridge between the code's accumulator style and the spec's
segment-list style. -/
theorem append_ite (c : Prop) [Decidable c] (x y : String) :
    (if c then x ++ y else x) = x ++ (if c then y else "") := by
  by_cases h : c <;> simp [h]

/-- Same bridge for the two-piece segments (`"; Attr=" ++ value`). -/
theorem append_ite2 (c : Prop) [Decidable c] (x y z : String) :
    (if c then x ++ y ++ z else x) = x ++ (if c then y ++ z else "") := by
  by_cases h : c <;> simp [h, String.append_assoc]

/-- The bridge with the branches flipped (condition negated). -/
theorem append_ite_flip (c : Prop) [Decidable c] (x y : String) :
    (if c then x else x ++ y) = x ++ (if c then "" else y) := by
  by_cases h : c <;> simp [h]

/-- The two-piece bridge with the branches flipped. -/
theorem append_ite2_flip (c : Prop) [Decidable c] (x y z : String) :
    (if c then x else x ++ y ++ z) = x ++ (if c then "" else y ++ z) := by
  by_cases h : c <;> simp [h, String.append_assoc]

/-- The cookie line as the spec describes it: `name=value`, then each
optional attribute appended under its condition, in the fixed order
Path, Domain, HttpOnly, Secure, Max-Age, Expires. Stated as a plain
concatenation of the seven segments (the code instead accumulates
left-to-right); comparing the two is the content of the order claim. -/
def specCookieLine (key value : String) (a : CookieAttrs) : String :=
  key ++ "=" ++ value
  ++ (if a.path ≠ "" then "; Path=" ++ a.path else "")
  ++ (if a.domain ≠ "" then "; Domain=" ++ a.domain else "")
  ++ (if a.http_only then "; HttpOnly" else "")
  ++ (if a.secure then "; Secure" else "")
  ++ (if a.max_age ≠ 0 then "; Max-Age=" ++ toString a.max_age else "")
  ++ (if a.expires ≠ "" then "; Expires=" ++ a.expires else "")

/-- C5: every rendered cookie directive is `name=value` followed by the
present optional attributes in the fixed order Path, Domain, HttpOnly,
Secure, Max-Age, Expires, each appended only under its condition; and
`set_cookies` turns each mapping entry into its own independent
`Set-Cookie` header line (one line per entry, never combined). -/
theorem c5_cookie_line_order (key value : String) (a : CookieAttrs)
    (cookies : List (String × String)) :
    renderCookie key value a = specCookieLine key value a ∧
    set_cookies cookies a =
      cookies.map (fun kv => Event.sendHeader "Set-Cookie" (renderCookie kv.1 kv.2 a)) ∧
    (set_cookies cookies a).length = cookies.length := by
  refine ⟨?_, rfl, by simp [set_cookies]⟩
  unfold renderCookie specCookieLine
  simp only [append_ite, append_ite2]

/-- Example for C5: with every optional attribute set, all six attribute
segments appear in the fixed order. -/
example :
    renderCookie "sid" "42" ⟨"/x", "example.com", true, true, 60, "Wed, 01-Jan-2031 00:00:00 GMT"⟩ =
      "sid=42; Path=/x; Domain=example.com; HttpOnly; Secure; Max-Age=60; Expires=Wed, 01-Jan-2031 00:00:00 GMT" := by
  decide

/-- The C6 claim text taken literally: split the header on `;`, drop
segments without `=`, split each kept segment on the first `=`, and trim
surrounding whitespace from the resulting name. (Second definition for
comparison against `parseCookieHeader`, which embeds the code.) -/
def claimParseCookieHeader (h : String) : List (String × String) :=
  (pySplit h ';').foldl
    (fun d pair =>
      if pyContainsChar pair '=' then
        let kv := splitFirstEq pair
        dictInsert d (pyStrip kv.1) kv.2
      else d)
    []

/-- C6 counterexample: on the header `a =1` the code keeps the trailing
space in the name (it strips the whole segment before splitting, so
whitespace adjacent to `=` survives into the name), while the claim's
split-then-trim-the-name description yields a trimmed name. -/
theorem c6_counterexample :
    parseCookieHeader "a =1" = [("a ", "1")] ∧
    claimParseCookieHeader "a =1" = [("a", "1")] ∧
    ¬ parseCookieHeader "a =1" = claimParseCookieHeader "a =1" := by
  decide

/-- The amended parsing description: split on `;`, drop the segments
without `=`, strip surrounding whitespace from each whole kept segment,
then split at the first `=`. -/
def strippedSegmentParse (h : String) : List (String × String) :=
  ((pySplit h ';').filter (fun pair => pyContainsChar pair '=')).foldl
    (fun d pair =>
      let kv := splitFirstEq (pyStrip pair)
      dictInsert d kv.1 kv.2)
    []

/-- Folding over a filtered list equals folding with an inline guard. -/
theorem foldl_filter_eq {α β : Type} (p : α → Bool) (f : β → α → β) (l : List α) (b : β) :
    (l.filter p).foldl f b = l.foldl (fun acc x => if p x then f acc x else acc) b := by
  induction l generalizing b with
  | nil => rfl
  | cons x xs ih => by_cases hx : p x <;> simp [List.filter_cons, hx, ih]

/-- C6 amended: incoming-cookie parsing splits the raw header on `;`,
silently drops every segment without `=`, strips surrounding whitespace
from each whole segment (so whitespace adjacent to `=` stays in the name),
then splits at the first `=`; the header `a=1; b=2; malformed; c=3`
parses to the mapping a↦1, b↦2, c↦3. -/
theorem c6_parse_amended (h : String) :
    parseCookieHeader h = strippedSegmentParse h ∧
    parseCookieHeader "a=1; b=2; malformed; c=3" = [("a", "1"), ("b", "2"), ("c", "3")] := by
  refine ⟨?_, by decide⟩
  unfold parseCookieHeader strippedSegmentParse
  rw [foldl_filter_eq]

/-- The cookie line up to and including the `Secure` segment, before the
`Max-Age` position. -/
def cookieBaseSegments (key value : String) (a : CookieAttrs) : String :=
  key ++ "=" ++ value
  ++ (if a.path ≠ "" then "; Path=" ++ a.path else "")
  ++ (if a.domain ≠ "" then "; Domain=" ++ a.domain else "")
  ++ (if a.http_only then "; HttpOnly" else "")
  ++ (if a.secure then "; Secure" else "")

/-- The trailing `Expires` segment of the cookie line. -/
def expiresSegment (a : CookieAttrs) : String :=
  if a.expires ≠ "" then "; Expires=" ++ a.expires else ""

/-- C7: the `Max-Age` attribute is emitted by a truthiness branch —
`max_age = 0` emits nothing at all (not `Max-Age=0`), any nonzero value
emits `; Max-Age=<seconds>` in its fixed position; concretely, the
default `visited` cookie with max-age 0 renders as `visited=true; Path=/`
and with max-age 60 as `visited=true; Path=/; Max-Age=60`. -/
theorem c7_max_age_truthiness (key value : String) (a : CookieAttrs) :
    renderCookie key value a =
      cookieBaseSegments key value a ++
        (if a.max_age = 0 then "" else "; Max-Age=" ++ toString a.max_age) ++
        expiresSegment a ∧
    renderCookie "visited" "true" ⟨"/", "", false, false, 0, ""⟩ = "visited=true; Path=/" ∧
    renderCookie "visited" "true" ⟨"/", "", false, false, 60, ""⟩ =
      "visited=true; Path=/; Max-Age=60" := by
  refine ⟨?_, by decide, by decide⟩
  unfold renderCookie cookieBaseSegments expiresSegment
  simp only [ne_eq, ite_not]
  simp only [append_ite, append_ite2, append_ite_flip, append_ite2_flip]

/-- Is the event a body write (`wfile.write`)? -/
def isWrite : Event → Bool
  | Event.write _ => true
  | _ => false

/-- Is the event the `end_headers()` call? -/
def isEndHeaders : Event → Bool
  | Event.endHeaders => true
  | _ => false

/-- Scans a trace: before the first `end_headers()` no body byte is
written, and after it only body writes occur; `false` if `end_headers()`
never happens or a write precedes it. -/
def headerPhase : List Event → Bool
  | [] => false
  | Event.endHeaders :: rest => rest.all isWrite
  | Event.write _ :: _ => false
  | _ :: rest => headerPhase rest

/-- A well-formed single response: exactly one `send_response`, exactly
one `end_headers()`, every status/header action before it and every body
write after it. -/
def responseShape (tr : List Event) : Bool :=
  ((statuses tr).length == 1) && (tr.countP isEndHeaders == 1) && headerPhase tr

theorem responseShape_debug_tail (req : Request) (msg : String) :
    responseShape (debugEvents req ++ defaultTail msg) = true := by
  unfold responseShape debugEvents
  cases getHeader req.headers "Cookie" with
  | none => rfl
  | some ch =>
      by_cases h : ch = ""
      · subst h; rfl
      · simp only [ne_eq, h, not_false_eq_true, ite_true]
        rfl

/-- C8: for every recognized verb and every request, the handler produces
exactly one response — one `send_response`, one `end_headers()` — with
every status and header action before `end_headers()` and every body
write after it; the body is never written before end-of-headers is
signaled. -/
theorem c8_phases (req : Request) : responseShape (handle req) = true := by
  obtain ⟨m, p, hs, b⟩ := req
  cases m with
  | GET =>
      by_cases hp : p = "/"
      · rw [handle_get_root_shape _ rfl hp]
        exact responseShape_debug_tail _ _
      · have he : handle ⟨Method.GET, p, hs, b⟩ =
            [Event.sendResponse 404,
             Event.sendHeader "Content-type" "application/json",
             Event.endHeaders,
             Event.write (Body.jsonError "Not Found")] := by
          simp [handle, hp]
        rw [he]; rfl
  | OPTIONS => rfl
  | POST =>
      rw [handle_default_shape _ (Or.inl rfl)]
      exact responseShape_debug_tail _ _
  | PUT =>
      rw [handle_default_shape _ (Or.inr (Or.inl rfl))]
      exact responseShape_debug_tail _ _
  | PATCH =>
      rw [handle_default_shape _ (Or.inr (Or.inr (Or.inl rfl)))]
      exact responseShape_debug_tail _ _
  | DELETE =>
      rw [handle_default_shape _ (Or.inr (Or.inr (Or.inr (Or.inl rfl))))]
      exact responseShape_debug_tail _ _
  | HEAD =>
      rw [handle_default_shape _ (Or.inr (Or.inr (Or.inr (Or.inr rfl))))]
      exact responseShape_debug_tail _ _

/-- The process-wide state a handler invocation can reach across
requests: only the logging sink (the `LOGGER` stream handler configured
at import time); the handler class keeps no other server-side state. -/
structure ServerState where
  log : List LogPayload
deriving DecidableEq, Repr

/-- The debug records a trace appends to the logging sink. -/
def debugLog (tr : List Event) : List LogPayload :=
  tr.filterMap (fun e =>
    match e with
    | Event.debug p => some p
    | _ => none)

/-- One request/response exchange at the server level: the handler runs,
its debug records are appended to the process-wide log, and the wire
events are sent to the client. -/
def serve (st : ServerState) (req : Request) : ServerState × List Event :=
  (ServerState.mk (st.log ++ debugLog (handle req)), wireEvents (handle req))

/-- C9: handling the same request twice in succession produces identical
responses — the second call, run in the server state the first call left
behind, sends the same wire events; indeed the response is the same from
every server state, because the only cross-request state the code touches
is the append-only logging sink, which no response reads. (Byte identity
follows: the wire bytes are a function of the event list.) -/
theorem c9_repeat_identical (st : ServerState) (req : Request) :
    (serve (serve st req).1 req).2 = (serve st req).2 ∧
    ∀ st2 : ServerState, (serve st2 req).2 = (serve st req).2 :=
  ⟨rfl, fun _ => rfl⟩

/-- The wire response as a function of method and path alone. -/
def wireResponse (m : Method) (p : String) : List Event :=
  match m with
  | Method.GET =>
      if p = "/" then defaultTail (verbMessage Method.GET)
      else
        [Event.sendResponse 404,
         Event.sendHeader "Content-type" "application/json",
         Event.endHeaders,
         Event.write (Body.jsonError "Not Found")]
  | Method.OPTIONS =>
      [Event.sendResponse 200,
       Event.sendHeader "Access-Control-Allow-Origin" "*",
       Event.sendHeader "Access-Control-Allow-Methods" "GET, POST, OPTIONS",
       Event.sendHeader "Access-Control-Allow-Headers" "Content-Type",
       Event.endHeaders,
       Event.write (Body.jsonMessage "⚪ OPTIONS received")]
  | m => defaultTail (verbMessage m)

theorem wireEvents_handle (req : Request) :
    wireEvents (handle req) = wireResponse req.method req.path := by
  obtain ⟨m, p, hs, b⟩ := req
  cases m with
  | GET =>
      by_cases hp : p = "/"
      · rw [handle_get_root_shape _ rfl hp]
        rw [wireEvents_append, wireEvents_debugEvents]
        simp [wireResponse, hp]
        rfl
      · have he : handle ⟨Method.GET, p, hs, b⟩ =
            [Event.sendResponse 404,
             Event.sendHeader "Content-type" "application/json",
             Event.endHeaders,
             Event.write (Body.jsonError "Not Found")] := by
          simp [handle, hp]
        rw [he]
        simp [wireResponse, hp]
        rfl
  | OPTIONS => rfl
  | POST =>
      rw [handle_default_shape _ (Or.inl rfl), wireEvents_append, wireEvents_debugEvents]
      rfl
  | PUT =>
      rw [handle_default_shape _ (Or.inr (Or.inl rfl)), wireEvents_append,
        wireEvents_debugEvents]
      rfl
  | PATCH =>
      rw [handle_default_shape _ (Or.inr (Or.inr (Or.inl rfl))), wireEvents_append,
        wireEvents_debugEvents]
      rfl
  | DELETE =>
      rw [handle_default_shape _ (Or.inr (Or.inr (Or.inr (Or.inl rfl)))), wireEvents_append,
        wireEvents_debugEvents]
      rfl
  | HEAD =>
      rw [handle_default_shape _ (Or.inr (Or.inr (Or.inr (Or.inr rfl)))), wireEvents_append,
        wireEvents_debugEvents]
      rfl

/-- C10: two requests that agree on method and path get identical wire
responses — same status, same handler-set header lines (hence the same
`Set-Cookie` directives) and same body writes; request headers, incoming
cookies and the request body feed only the debug logging, which is not
part of the response. -/
theorem c10_method_path_determine_response (r1 r2 : Request)
    (hm : r1.method = r2.method) (hp : r1.path = r2.path) :
    wireEvents (handle r1) = wireEvents (handle r2) := by
  rw [wireEvents_handle, wireEvents_handle, hm, hp]

/-- C10 witness: same method and path, different headers, cookies and
body. -/
theorem c10_method_path_determine_response_witness :
    wireEvents (handle ⟨Method.POST, "/p", [("Cookie", "a=1; b=2"), ("X-Custom", "v")], "body-1"⟩) =
      wireEvents (handle ⟨Method.POST, "/p", [], ""⟩) :=
  c10_method_path_determine_response
    ⟨Method.POST, "/p", [("Cookie", "a=1; b=2"), ("X-Custom", "v")], "body-1"⟩
    ⟨Method.POST, "/p", [], ""⟩ rfl rfl
